import Mathlib

/-!
# Visibility-Tagged Vector Index Adapter — shallow embedding

A shallow embedding of `src/src/operators/qdrant_operator.rs` (the only
source file of the repository).  Each of the three operations
(`create_new_qdrant_point_query`, `update_qdrant_point_private_query`,
`search_qdrant_query`) is translated into a pure Lean function that takes,
besides the Rust function's arguments, the responses of the external qdrant
client capability as explicit inputs, and returns the list of calls issued
to that client together with the operation's result.

Conventions of the embedding:
* UUIDs are modelled by their textual (canonical hyphenated) representation:
  a `String`.  `Uuid::default().to_string()` is the nil UUID string.
* The embedding vector elements, the search filter and the similarity score
  are opaque pass-through values for this module (the Rust code never
  inspects them), so the operations are polymorphic in types `V`, `F`, `S`.
* The qdrant payload (serde_json object converted with `try_into`) is an
  association list from `String` keys to JSON values.
* `page` is a `u64` in Rust; it is modelled as `Nat` (the only arithmetic,
  `(page - 1) * 10`, is performed under the hypothesis `1 ≤ page`, where
  `Nat` and `u64` subtraction agree).
-/

namespace Arguflow

/-- JSON values as produced by `serde_json::json!` and consumed through the
qdrant `Value` accessors `as_bool` / `as_list` / `as_str`. -/
inductive JsonValue where
  | bool : Bool → JsonValue
  | str : String → JsonValue
  | num : Int → JsonValue
  | list : List JsonValue → JsonValue
  | null : JsonValue

/-- qdrant `Value::as_bool`: `Some b` exactly on booleans. -/
def JsonValue.as_bool : JsonValue → Option Bool
  | .bool b => some b
  | _ => none

/-- qdrant `Value::as_list`: `Some` exactly on lists. -/
def JsonValue.as_list : JsonValue → Option (List JsonValue)
  | .list xs => some xs
  | _ => none

/-- qdrant `Value::as_str`: `Some` exactly on strings. -/
def JsonValue.as_str : JsonValue → Option String
  | .str s => some s
  | _ => none

/-- A qdrant payload: a JSON object, modelled as an association list. -/
def Payload := List (String × JsonValue)

instance : EmptyCollection Payload := ⟨([] : List (String × JsonValue))⟩

/-- `payload.get(key)` on a qdrant payload map. -/
def Payload.get (p : Payload) (k : String) : Option JsonValue :=
  ((p : List (String × JsonValue)).find? (fun kv => kv.fst == k)).map (·.snd)

/-- `ServiceError` from `crate::errors` (only the `BadRequest` variant is
used by this module). -/
inductive ServiceError where
  | badRequest : String → ServiceError
deriving DecidableEq, Repr

/-- `DefaultError` from `crate::errors`: a plain message wrapper. -/
structure DefaultError where
  message : String
deriving DecidableEq, Repr

/-- `uuid::Uuid::default().to_string()`: the nil UUID. -/
def uuidNilString : String := "00000000-0000-0000-0000-000000000000"

/-- A qdrant `PointStruct`: id, vectors and payload (vector elements are
opaque to this module). -/
structure PointStruct (V : Type) where
  id : String
  vectors : List V
  payload : Payload

/-- The qdrant `SearchPoints` request, restricted to the fields this module
sets; the remaining fields are filled by `Default::default()` in the source
and never read back. -/
structure SearchPoints (V F : Type) where
  collection_name : String
  vector : List V
  limit : Nat
  offset : Option Nat
  with_payload : Option Unit
  filter : Option F

/-- One call issued to the external qdrant client capability.  The four
constructors are the four client methods used by the source file. -/
inductive IndexCall (V F : Type) where
  | upsertPointsBlocking (collection : String) (points : List (PointStruct V))
  | getPoints (collection : String) (ids : List String)
  | setPayload (collection : String) (ids : List String) (payload : Payload)
  | searchPoints (req : SearchPoints V F)

/-- Shallow embedding of `create_new_qdrant_point_query`.

`conn` is the outcome of `get_qdrant_connection()` (its error carries the
`DefaultError` message), `upsertResp` the outcome of
`upsert_points_blocking`.  Returns the calls issued to the client and the
Rust function's result. -/
def create_new_qdrant_point_query (V F : Type) (point_id : String)
    (embedding_vector : List V) (priv : Bool) (author_id : Option String)
    (conn : Except String Unit) (upsertResp : Except Unit Unit) :
    List (IndexCall V F) × Except ServiceError Unit :=
  match conn with
  | .error msg => ([], .error (.badRequest msg))
  | .ok _ =>
    let payload : Payload :=
      match priv with
      | true => [("private", .bool true),
                 ("authors", .list [.str (author_id.getD uuidNilString)])]
      | false => []
    let point : PointStruct V := ⟨point_id, embedding_vector, payload⟩
    match upsertResp with
    | .error _ =>
      ([.upsertPointsBlocking "debate_cards" [point]],
       .error (.badRequest "Failed inserting card to qdrant"))
    | .ok _ => ([.upsertPointsBlocking "debate_cards" [point]], .ok ())

/-- A point as returned by `get_points` (only its payload is read by the
source; the returned vectors are never inspected). -/
structure RetrievedPoint where
  payload : Payload

/-- The author-list sanitization inside `update_qdrant_point_private_query`
(source lines 93–110): a missing `authors` key or a non-list value becomes
`[]`; each non-string entry is mapped to `""`; empty strings are filtered
out. -/
def sanitizeAuthors : Option JsonValue → List String
  | some authors =>
    match authors.as_list with
    | some authorsList =>
      (authorsList.map (fun author =>
        match author.as_str with
        | some author => author
        | none => "")).filter (fun author => author ≠ "")
    | none => []
  | none => []

/-- The merge step inside `update_qdrant_point_private_query` (source lines
112–114): append the requesting author unless it is already present. -/
def mergeAuthor (current_author_ids : List String) (author : String) : List String :=
  if !(current_author_ids.contains author) then current_author_ids ++ [author]
  else current_author_ids

/-- Shallow embedding of `update_qdrant_point_private_query`.

`conn` is the outcome of `get_qdrant_connection()`, `getResp` the outcome
of `get_points` (a list of retrieved points on success), `setResp` the
outcome of `set_payload`.  Returns the calls issued to the client and the
Rust function's result. -/
def update_qdrant_point_private_query (V F : Type) (point_id : String)
    (priv : Bool) (author_id : Option String)
    (conn : Except String Unit)
    (getResp : Except Unit (List RetrievedPoint))
    (setResp : Except Unit Unit) :
    List (IndexCall V F) × Except ServiceError Unit :=
  if priv && author_id.isNone then
    ([], .error (.badRequest "Private card must have an author"))
  else
    match conn with
    | .error msg => ([], .error (.badRequest msg))
    | .ok _ =>
      let getCall : IndexCall V F := .getPoints "debate_cards" [point_id]
      match getResp with
      | .error _ => ([getCall], .error (.badRequest "Failed getting card from qdrant"))
      | .ok current_point_vec =>
        match current_point_vec.head? with
        | none => ([getCall], .error (.badRequest "Failed getting card from qdrant"))
        | some current_point =>
          match current_point.payload.get "private" with
          | none => ([getCall], .error (.badRequest "Failed getting card from qdrant"))
          | some privValue =>
            let current_private : Bool :=
              match privValue.as_bool with
              | some b => b
              | none => false
            if !current_private then ([getCall], .ok ())
            else
              let payload : Payload :=
                match priv with
                | true =>
                  let current_author_ids : List String :=
                    mergeAuthor (sanitizeAuthors (current_point.payload.get "authors"))
                      (author_id.getD uuidNilString)
                  [("private", .bool true),
                   ("authors", .list (current_author_ids.map .str))]
                | false => []
              let setCall : IndexCall V F := .setPayload "debate-cards" [point_id] payload
              match setResp with
              | .error _ =>
                ([getCall, setCall],
                 .error (.badRequest "Failed updating card payload in qdrant"))
              | .ok _ => ([getCall, setCall], .ok ())

/-- The `point_id_options` of a qdrant `PointId`: either a UUID string or a
numeric identifier. -/
inductive PointIdOptions where
  | uuid (s : String)
  | num (n : Nat)
deriving DecidableEq, Repr

/-- A qdrant `PointId` (its single field is optional on the wire). -/
structure PointId where
  point_id_options : Option PointIdOptions
deriving DecidableEq, Repr

/-- A scored point as returned by `search_points` (score values are opaque
to this module). -/
structure ScoredPoint (S : Type) where
  id : Option PointId
  score : S

/-- A domain search result (`SearchResult` from `card_operator`). -/
structure SearchResult (S : Type) where
  score : S
  point_id : String

/-- Hexadecimal digit test used by the UUID parser model. -/
def isHexDigitChar (c : Char) : Bool :=
  (('0' ≤ c) && (c ≤ '9')) || (('a' ≤ c) && (c ≤ 'f')) || (('A' ≤ c) && (c ≤ 'F'))

/-- Modelled from the spec: point identifiers have 128-bit UUID semantics
and result entries whose identifier "cannot be parsed as a valid point
identity" are dropped.  This models the external `uuid::Uuid::parse_str`
(an external crate, not part of this repository) on the canonical
hyphenated textual form `8-4-4-4-12`: it returns the parsed identifier on
success and `none` on any malformed string. -/
def uuidParse (s : String) : Option String :=
  let cs := s.toList
  if cs.length = 36 &&
      ((List.range 36).all (fun i =>
        if i = 8 || i = 13 || i = 18 || i = 23 then cs.getD i ' ' == '-'
        else isHexDigitChar (cs.getD i ' '))) then
    some s
  else none

/-- The per-entry conversion inside `search_qdrant_query`'s `filter_map`:
`point.clone().id?.point_id_options?`, keep UUID identifiers that parse,
drop numeric identifiers and parse failures. -/
def convertScoredPoint (S : Type) (point : ScoredPoint S) : Option (SearchResult S) :=
  match point.id with
  | none => none
  | some pid =>
    match pid.point_id_options with
    | none => none
    | some (.uuid id) =>
      match uuidParse id with
      | some parsed => some ⟨point.score, parsed⟩
      | none => none
    | some (.num _) => none

/-- Shallow embedding of `search_qdrant_query`.

`conn` is the outcome of `get_qdrant_connection()` (propagated directly as
a `DefaultError` by `?`), `searchResp` the outcome of `search_points`.
Returns the calls issued to the client and the Rust function's result. -/
def search_qdrant_query (V F S : Type) (page : Nat) (filter : F)
    (embedding_vector : List V)
    (conn : Except String Unit)
    (searchResp : Except Unit (List (ScoredPoint S))) :
    List (IndexCall V F) × Except DefaultError (List (SearchResult S)) :=
  match conn with
  | .error msg => ([], .error ⟨msg⟩)
  | .ok _ =>
    let req : SearchPoints V F :=
      { collection_name := "debate_cards"
        vector := embedding_vector
        limit := 10
        offset := some ((page - 1) * 10)
        with_payload := none
        filter := some filter }
    match searchResp with
    | .error _ => ([.searchPoints req], .error ⟨"Failed to search points on Qdrant"⟩)
    | .ok data =>
      ([.searchPoints req], .ok (data.filterMap (convertScoredPoint S)))

/-! ## Theorems about the claims -/

/-- Membership in the merged author list: `mergeAuthor S b` holds exactly
the members of `S` together with `b`. -/
lemma mergeAuthor_mem (S : List String) (b x : String) :
    x ∈ mergeAuthor S b ↔ x ∈ S ∨ x = b := by
  by_cases hb : b ∈ S
  · simp only [mergeAuthor]
    rw [if_neg (by simp [hb])]
    constructor
    · exact Or.inl
    · rintro (h | rfl)
      · exact h
      · exact hb
  · simp only [mergeAuthor]
    rw [if_pos (by simp [hb])]
    simp

/-- Merging an already-present author is a no-op. -/
lemma mergeAuthor_of_mem {S : List String} {b : String} (h : b ∈ S) :
    mergeAuthor S b = S := by
  simp only [mergeAuthor]
  rw [if_neg (by simp [h])]

/-- Sanitizing a well-formed author list (all entries strings, none empty)
is the identity. -/
lemma sanitizeAuthors_of_strings (S : List String) (hS : ∀ s ∈ S, s ≠ "") :
    sanitizeAuthors (some (.list (S.map .str))) = S := by
  simp only [sanitizeAuthors, JsonValue.as_list, List.map_map]
  have h1 : S.map ((fun author =>
      match JsonValue.as_str author with
      | some author => author
      | none => "") ∘ JsonValue.str) = S := by
    simp [Function.comp_def, JsonValue.as_str]
  rw [h1]
  exact List.filter_eq_self.mpr (fun a ha => by simpa using hS a ha)

/-- On a currently-Private point with `newVisibility = Private` and an
author supplied, the operation issues the fetch followed by a metadata
write-back whose author list is the sanitized existing list merged with
the requesting author. -/
lemma update_private_true_calls (V F : Type) (pid b : String) (p : RetrievedPoint)
    (rest : List RetrievedPoint) (setResp : Except Unit Unit) (v : JsonValue)
    (hget : p.payload.get "private" = some v)
    (hpriv : v.as_bool = some true) :
    (update_qdrant_point_private_query V F pid true (some b) (.ok ())
        (.ok (p :: rest)) setResp).1
      = [.getPoints "debate_cards" [pid],
         .setPayload "debate-cards" [pid]
           [("private", .bool true),
            ("authors",
             .list ((mergeAuthor (sanitizeAuthors (p.payload.get "authors")) b).map .str))]] := by
  cases setResp <;> simp [update_qdrant_point_private_query, hget, hpriv]

/-- Claim C1, counterexample: `create_new_qdrant_point_query` with
`private = true` and `author_id = None` does **not** fail with a validation
error and does issue an upsert: with a healthy connection and a successful
upsert it returns `Ok(())`, and the upsert call (with the author list
defaulted to the nil UUID) is issued. -/
theorem C1_counterexample :
    (create_new_qdrant_point_query Unit Unit "p" [] true none (.ok ()) (.ok ())).2
      = .ok () ∧
    (create_new_qdrant_point_query Unit Unit "p" [] true none (.ok ()) (.ok ())).1
      = [.upsertPointsBlocking "debate_cards"
          [⟨"p", [], [("private", .bool true), ("authors", .list [.str uuidNilString])]⟩]] :=
  ⟨rfl, rfl⟩

/-- Claim C1, amended: Insert performs no author validation.  With
`visibility = Private` and `author = None` it issues the upsert anyway,
with the author list defaulted to the nil UUID string, and succeeds exactly
when the upsert succeeds.  (Author validation exists only in
SetVisibility.) -/
theorem C1_amended (V F : Type) (pid : String) (vec : List V)
    (up : Except Unit Unit) :
    (create_new_qdrant_point_query V F pid vec true none (.ok ()) up).1
      = [.upsertPointsBlocking "debate_cards"
          [⟨pid, vec, [("private", .bool true), ("authors", .list [.str uuidNilString])]⟩]] ∧
    ((create_new_qdrant_point_query V F pid vec true none (.ok ()) up).2
      = .ok () ↔ up = .ok ()) := by
  cases up with
  | error e => exact ⟨rfl, by simp [create_new_qdrant_point_query]⟩
  | ok u => exact ⟨rfl, by simp [create_new_qdrant_point_query]⟩

/-- Claim C2, counterexample: a point whose metadata lacks the `private`
key is **not** handled as Public (the no-op success path); the operation
reports a read error instead. -/
theorem C2_counterexample :
    (update_qdrant_point_private_query Unit Unit "p" false none (.ok ())
        (.ok [⟨[]⟩]) (.ok ())).2
      = .error (.badRequest "Failed getting card from qdrant") := rfl

/-- Claim C2, amended: the current visibility is read from the `private`
metadata value; a **present but non-boolean** value is treated as `false`
(Public, leading to the no-op success path), while a **missing** `private`
key is reported as a read error, not treated as Public. -/
theorem C2_amended (V F : Type) (pid : String) (priv : Bool)
    (author : Option String) (p : RetrievedPoint) (rest : List RetrievedPoint)
    (setResp : Except Unit Unit)
    (hval : (priv && author.isNone) = false) :
    (∀ v, p.payload.get "private" = some v → v.as_bool = none →
      update_qdrant_point_private_query V F pid priv author (.ok ())
          (.ok (p :: rest)) setResp
        = ([.getPoints "debate_cards" [pid]], .ok ())) ∧
    (p.payload.get "private" = none →
      update_qdrant_point_private_query V F pid priv author (.ok ())
          (.ok (p :: rest)) setResp
        = ([.getPoints "debate_cards" [pid]],
           .error (.badRequest "Failed getting card from qdrant"))) := by
  constructor
  · intro v hget hbool
    simp [update_qdrant_point_private_query, hval, hget, hbool]
  · intro hget
    simp [update_qdrant_point_private_query, hval, hget]

/-- Claim C2, witness for the amended theorem at a concrete input: a point
whose `private` value is the string `"x"` (non-boolean) is treated as
Public. -/
theorem C2_amended_witness :
    (false && (none : Option String).isNone) = false ∧
    ((∀ v, Payload.get [("private", JsonValue.str "x")] "private" = some v →
        v.as_bool = none →
        update_qdrant_point_private_query Unit Unit "p" false none (.ok ())
            (.ok [⟨[("private", JsonValue.str "x")]⟩]) (.ok ())
          = ([.getPoints "debate_cards" ["p"]], .ok ())) ∧
     (Payload.get [("private", JsonValue.str "x")] "private" = none →
        update_qdrant_point_private_query Unit Unit "p" false none (.ok ())
            (.ok [⟨[("private", JsonValue.str "x")]⟩]) (.ok ())
          = ([.getPoints "debate_cards" ["p"]],
             .error (.badRequest "Failed getting card from qdrant")))) :=
  ⟨rfl, C2_amended Unit Unit "p" false none ⟨[("private", JsonValue.str "x")]⟩ [] (.ok ()) rfl⟩

/-- Claim C3: the four client call sites do **not** all name one constant
collection.  Insert's upsert, SetVisibility's fetch and Search's query all
name `"debate_cards"`, but SetVisibility's metadata write-back names
`"debate-cards"` — a different string (hyphen instead of underscore). -/
theorem C3_collection_mismatch :
    (update_qdrant_point_private_query Unit Unit "p" false none (.ok ())
        (.ok [⟨[("private", .bool true)]⟩]) (.ok ())).1
      = [.getPoints "debate_cards" ["p"], .setPayload "debate-cards" ["p"] []] ∧
    (create_new_qdrant_point_query Unit Unit "p" [] false none (.ok ()) (.ok ())).1
      = [.upsertPointsBlocking "debate_cards" [⟨"p", [], []⟩]] ∧
    (search_qdrant_query Unit Unit Unit 1 () [] (.ok ()) (.ok [])).1
      = [.searchPoints ⟨"debate_cards", [], 10, some 0, none, some ()⟩] ∧
    "debate-cards" ≠ "debate_cards" :=
  ⟨rfl, rfl, rfl, by decide⟩

/-- Claim C4: on a point whose `private` metadata value evaluates to
`false` (present boolean `false`, or present non-boolean defaulted to
`false`), SetVisibility returns success after the fetch and issues no
write, regardless of the requested new visibility. -/
theorem C4_public_noop (V F : Type) (pid : String) (priv : Bool)
    (author : Option String) (p : RetrievedPoint) (rest : List RetrievedPoint)
    (setResp : Except Unit Unit) (v : JsonValue)
    (hval : (priv && author.isNone) = false)
    (hget : p.payload.get "private" = some v)
    (hpub : v.as_bool.getD false = false) :
    update_qdrant_point_private_query V F pid priv author (.ok ())
        (.ok (p :: rest)) setResp
      = ([.getPoints "debate_cards" [pid]], .ok ()) := by
  cases hbool : v.as_bool with
  | none => simp [update_qdrant_point_private_query, hval, hget, hbool]
  | some b =>
    rw [hbool] at hpub
    simp at hpub
    simp [update_qdrant_point_private_query, hval, hget, hbool, hpub]

/-- Claim C4, witness: a Public→Private request (with author supplied) on a
point stored with `private = false` succeeds without a write. -/
theorem C4_public_noop_witness :
    (true && (some "a" : Option String).isNone) = false ∧
    Payload.get [("private", JsonValue.bool false)] "private" = some (.bool false) ∧
    (JsonValue.bool false).as_bool.getD false = false ∧
    update_qdrant_point_private_query Unit Unit "p" true (some "a") (.ok ())
        (.ok [⟨[("private", JsonValue.bool false)]⟩]) (.ok ())
      = ([.getPoints "debate_cards" ["p"]], .ok ()) :=
  ⟨rfl, rfl, rfl,
    C4_public_noop Unit Unit "p" true (some "a") ⟨[("private", JsonValue.bool false)]⟩ []
      (.ok ()) (.bool false) rfl rfl rfl⟩

/-- Claim C6: on a currently-Private point (`private` metadata value is the
boolean `true`), SetVisibility with `newVisibility = Public` writes back
exactly the empty metadata document, and succeeds when the write is
acknowledged. -/
theorem C6_private_to_public (V F : Type) (pid : String) (author : Option String)
    (p : RetrievedPoint) (rest : List RetrievedPoint) (setResp : Except Unit Unit)
    (v : JsonValue)
    (hget : p.payload.get "private" = some v)
    (hpriv : v.as_bool = some true) :
    (update_qdrant_point_private_query V F pid false author (.ok ())
        (.ok (p :: rest)) setResp).1
      = [.getPoints "debate_cards" [pid], .setPayload "debate-cards" [pid] []] ∧
    (setResp = .ok () →
      (update_qdrant_point_private_query V F pid false author (.ok ())
          (.ok (p :: rest)) setResp).2 = .ok ()) := by
  cases setResp with
  | error e =>
    refine ⟨?_, by intro h; exact absurd h (by simp)⟩
    simp [update_qdrant_point_private_query, hget, hpriv]
  | ok u =>
    refine ⟨?_, fun _ => ?_⟩ <;>
      simp [update_qdrant_point_private_query, hget, hpriv]

/-- Claim C6, witness: a Private→Public request on a point with two authors
clears the metadata entirely. -/
theorem C6_private_to_public_witness :
    Payload.get [("private", JsonValue.bool true),
        ("authors", JsonValue.list [JsonValue.str "a", JsonValue.str "b"])] "private"
      = some (.bool true) ∧
    (JsonValue.bool true).as_bool = some true ∧
    ((update_qdrant_point_private_query Unit Unit "p" false none (.ok ())
        (.ok [⟨[("private", JsonValue.bool true),
          ("authors", JsonValue.list [JsonValue.str "a", JsonValue.str "b"])]⟩]) (.ok ())).1
      = [.getPoints "debate_cards" ["p"], .setPayload "debate-cards" ["p"] []] ∧
    ((.ok () : Except Unit Unit) = .ok () →
      (update_qdrant_point_private_query Unit Unit "p" false none (.ok ())
        (.ok [⟨[("private", JsonValue.bool true),
          ("authors", JsonValue.list [JsonValue.str "a", JsonValue.str "b"])]⟩]) (.ok ())).2
        = .ok ())) :=
  ⟨rfl, rfl,
    C6_private_to_public Unit Unit "p" none
      ⟨[("private", JsonValue.bool true),
        ("authors", JsonValue.list [JsonValue.str "a", JsonValue.str "b"])]⟩ [] (.ok ())
      (.bool true) rfl rfl⟩

/-- Claim C7: the metadata Insert writes is exactly empty for a Public
point, and exactly `{private: true, authors: [author]}` (a one-element
author list) for a Private point with the author supplied. -/
theorem C7_insert_payload (V F : Type) (pid a : String) (vec : List V)
    (author : Option String) (up : Except Unit Unit) :
    (create_new_qdrant_point_query V F pid vec false author (.ok ()) up).1
      = [.upsertPointsBlocking "debate_cards" [⟨pid, vec, []⟩]] ∧
    (create_new_qdrant_point_query V F pid vec true (some a) (.ok ()) up).1
      = [.upsertPointsBlocking "debate_cards"
          [⟨pid, vec, [("private", .bool true), ("authors", .list [.str a])]⟩]] := by
  cases up <;> exact ⟨rfl, rfl⟩

/-- Claim C5: SetVisibility(Private→Private, author `b`) on a point whose
existing authors are the well-formed list `S` (all non-empty strings)
writes back `{private: true, authors: mergeAuthor S b}`, where the merged
list holds exactly the members of `S` together with `b` (set semantics),
equals `S` when `b` is already present, and a repeated call with the same
author on the written-back point writes the very same author list again
(idempotence). -/
theorem C5_private_merge (V F : Type) (pid b : String) (S : List String)
    (p : RetrievedPoint) (rest rest2 : List RetrievedPoint)
    (setResp setResp2 : Except Unit Unit) (v : JsonValue)
    (hget : p.payload.get "private" = some v)
    (hpriv : v.as_bool = some true)
    (hauthors : p.payload.get "authors" = some (.list (S.map .str)))
    (hS : ∀ s ∈ S, s ≠ "") (hb : b ≠ "") :
    (update_qdrant_point_private_query V F pid true (some b) (.ok ())
        (.ok (p :: rest)) setResp).1
      = [.getPoints "debate_cards" [pid],
         .setPayload "debate-cards" [pid]
           [("private", .bool true),
            ("authors", .list ((mergeAuthor S b).map .str))]] ∧
    (∀ x, x ∈ mergeAuthor S b ↔ (x ∈ S ∨ x = b)) ∧
    (b ∈ S → mergeAuthor S b = S) ∧
    (update_qdrant_point_private_query V F pid true (some b) (.ok ())
        (.ok (⟨[("private", .bool true),
                ("authors", .list ((mergeAuthor S b).map .str))]⟩ :: rest2))
        setResp2).1
      = [.getPoints "debate_cards" [pid],
         .setPayload "debate-cards" [pid]
           [("private", .bool true),
            ("authors", .list ((mergeAuthor S b).map .str))]] := by
  have hS' : ∀ s ∈ mergeAuthor S b, s ≠ "" := by
    intro s hs
    rcases (mergeAuthor_mem S b s).mp hs with h | rfl
    · exact hS s h
    · exact hb
  refine ⟨?_, mergeAuthor_mem S b, fun h => mergeAuthor_of_mem h, ?_⟩
  · rw [update_private_true_calls V F pid b p rest setResp v hget hpriv,
      hauthors, sanitizeAuthors_of_strings S hS]
  · rw [update_private_true_calls V F pid b
      ⟨[("private", .bool true), ("authors", .list ((mergeAuthor S b).map .str))]⟩
      rest2 setResp2 (.bool true) rfl rfl]
    have hwp : (⟨[("private", .bool true),
        ("authors", .list ((mergeAuthor S b).map .str))]⟩ : RetrievedPoint).payload.get "authors"
        = some (.list ((mergeAuthor S b).map .str)) := rfl
    rw [hwp, sanitizeAuthors_of_strings _ hS',
      mergeAuthor_of_mem ((mergeAuthor_mem S b b).mpr (Or.inr rfl))]

/-- Claim C5, witness: merging author `"b"` into existing authors `["a"]`
on a concrete private point. -/
theorem C5_private_merge_witness :
    Payload.get [("private", JsonValue.bool true),
        ("authors", JsonValue.list [JsonValue.str "a"])] "private"
      = some (.bool true) ∧
    (JsonValue.bool true).as_bool = some true ∧
    Payload.get [("private", JsonValue.bool true),
        ("authors", JsonValue.list [JsonValue.str "a"])] "authors"
      = some (.list (["a"].map .str)) ∧
    (∀ s ∈ ["a"], s ≠ "") ∧ "b" ≠ "" ∧
    ((update_qdrant_point_private_query Unit Unit "p" true (some "b") (.ok ())
        (.ok [⟨[("private", JsonValue.bool true),
          ("authors", JsonValue.list [JsonValue.str "a"])]⟩]) (.ok ())).1
      = [.getPoints "debate_cards" ["p"],
         .setPayload "debate-cards" ["p"]
           [("private", .bool true),
            ("authors", .list ((mergeAuthor ["a"] "b").map .str))]] ∧
    (∀ x, x ∈ mergeAuthor ["a"] "b" ↔ (x ∈ ["a"] ∨ x = "b")) ∧
    ("b" ∈ ["a"] → mergeAuthor ["a"] "b" = ["a"]) ∧
    (update_qdrant_point_private_query Unit Unit "p" true (some "b") (.ok ())
        (.ok (⟨[("private", .bool true),
                ("authors", .list ((mergeAuthor ["a"] "b").map .str))]⟩ :: []))
        (.ok ())).1
      = [.getPoints "debate_cards" ["p"],
         .setPayload "debate-cards" ["p"]
           [("private", .bool true),
            ("authors", .list ((mergeAuthor ["a"] "b").map .str))]]) :=
  ⟨rfl, rfl, rfl, by decide, by decide,
    C5_private_merge Unit Unit "p" "b" ["a"]
      ⟨[("private", JsonValue.bool true), ("authors", JsonValue.list [JsonValue.str "a"])]⟩
      [] [] (.ok ()) (.ok ()) (.bool true) rfl rfl rfl (by decide) (by decide)⟩

/-- Claim C8: for every page ≥ 1, Search issues exactly one similarity
query, with a fixed limit of 10 and offset `(page-1)*10` (offset 0 when
`page = 1`), returns the engine's entries converted in place, and the
conversion preserves the engine's order (it distributes over append — no
re-sorting). -/
theorem C8_search_paging (V F S : Type) (page : Nat) (filter : F) (vec : List V)
    (data : List (ScoredPoint S)) (hpage : 1 ≤ page) :
    (search_qdrant_query V F S page filter vec (.ok ()) (.ok data)).1
      = [.searchPoints
          { collection_name := "debate_cards", vector := vec, limit := 10,
            offset := some ((page - 1) * 10), with_payload := none,
            filter := some filter }] ∧
    (page = 1 →
      (search_qdrant_query V F S page filter vec (.ok ()) (.ok data)).1
        = [.searchPoints
            { collection_name := "debate_cards", vector := vec, limit := 10,
              offset := some 0, with_payload := none, filter := some filter }]) ∧
    (search_qdrant_query V F S page filter vec (.ok ()) (.ok data)).2
      = .ok (data.filterMap (convertScoredPoint S)) ∧
    (∀ l₁ l₂ : List (ScoredPoint S),
      (l₁ ++ l₂).filterMap (convertScoredPoint S)
        = l₁.filterMap (convertScoredPoint S) ++ l₂.filterMap (convertScoredPoint S)) := by
  refine ⟨rfl, ?_, rfl, ?_⟩
  · rintro rfl; rfl
  · intro l₁ l₂; exact List.filterMap_append l₁ l₂ (convertScoredPoint S)

/-- Claim C8, witness: a concrete page-2 search (offset 10) with an empty
result set. -/
theorem C8_search_paging_witness :
    1 ≤ 2 ∧
    ((search_qdrant_query Unit Unit Unit 2 () [] (.ok ())
        (.ok ([] : List (ScoredPoint Unit)))).1
      = [.searchPoints
          { collection_name := "debate_cards", vector := [], limit := 10,
            offset := some ((2 - 1) * 10), with_payload := none,
            filter := some () }] ∧
    ((2 : Nat) = 1 →
      (search_qdrant_query Unit Unit Unit 2 () [] (.ok ())
          (.ok ([] : List (ScoredPoint Unit)))).1
        = [.searchPoints
            { collection_name := "debate_cards", vector := [], limit := 10,
              offset := some 0, with_payload := none, filter := some () }]) ∧
    (search_qdrant_query Unit Unit Unit 2 () [] (.ok ())
        (.ok ([] : List (ScoredPoint Unit)))).2
      = .ok (([] : List (ScoredPoint Unit)).filterMap (convertScoredPoint Unit)) ∧
    (∀ l₁ l₂ : List (ScoredPoint Unit),
      (l₁ ++ l₂).filterMap (convertScoredPoint Unit)
        = l₁.filterMap (convertScoredPoint Unit) ++ l₂.filterMap (convertScoredPoint Unit))) :=
  ⟨by decide, C8_search_paging Unit Unit Unit 2 () [] [] (by decide)⟩

/-- Claim C9: an engine result entry whose identifier is absent (either no
id or no id options), numeric, or a string that does not parse as a UUID,
converts to `none` and is dropped from Search's returned sequence; the
remaining entries are still returned and the call still succeeds. -/
theorem C9_bad_ids_dropped (V F S : Type) (page : Nat) (filter : F) (vec : List V)
    (xs ys : List (ScoredPoint S)) (bad : ScoredPoint S)
    (hbad : bad.id = none ∨ bad.id = some ⟨none⟩
        ∨ (∃ n, bad.id = some ⟨some (.num n)⟩)
        ∨ (∃ s, bad.id = some ⟨some (.uuid s)⟩ ∧ uuidParse s = none)) :
    convertScoredPoint S bad = none ∧
    (search_qdrant_query V F S page filter vec (.ok ())
        (.ok (xs ++ bad :: ys))).2
      = .ok (xs.filterMap (convertScoredPoint S)
          ++ ys.filterMap (convertScoredPoint S)) := by
  have hconv : convertScoredPoint S bad = none := by
    rcases hbad with h | h | ⟨n, h⟩ | ⟨s, h, hp⟩
    · simp [convertScoredPoint, h]
    · simp [convertScoredPoint, h]
    · simp [convertScoredPoint, h]
    · simp [convertScoredPoint, h, hp]
  refine ⟨hconv, ?_⟩
  show Except.ok ((xs ++ bad :: ys).filterMap (convertScoredPoint S)) = _
  rw [List.filterMap_append, List.filterMap_cons, hconv]

/-- Claim C9, witness: a numeric identifier between two valid UUID entries
is dropped while both neighbours survive. -/
theorem C9_bad_ids_dropped_witness :
    ((⟨some ⟨some (.num 5)⟩, ()⟩ : ScoredPoint Unit).id = none
        ∨ (⟨some ⟨some (.num 5)⟩, ()⟩ : ScoredPoint Unit).id = some ⟨none⟩
        ∨ (∃ n, (⟨some ⟨some (.num 5)⟩, ()⟩ : ScoredPoint Unit).id = some ⟨some (.num n)⟩)
        ∨ (∃ s, (⟨some ⟨some (.num 5)⟩, ()⟩ : ScoredPoint Unit).id = some ⟨some (.uuid s)⟩
            ∧ uuidParse s = none)) ∧
    (convertScoredPoint Unit ⟨some ⟨some (.num 5)⟩, ()⟩ = none ∧
    (search_qdrant_query Unit Unit Unit 1 () [] (.ok ())
        (.ok ([⟨some ⟨some (.uuid uuidNilString)⟩, ()⟩]
          ++ (⟨some ⟨some (.num 5)⟩, ()⟩ : ScoredPoint Unit)
            :: [⟨some ⟨some (.uuid uuidNilString)⟩, ()⟩]))).2
      = .ok ([(⟨some ⟨some (.uuid uuidNilString)⟩, ()⟩ : ScoredPoint Unit)].filterMap
              (convertScoredPoint Unit)
          ++ [(⟨some ⟨some (.uuid uuidNilString)⟩, ()⟩ : ScoredPoint Unit)].filterMap
              (convertScoredPoint Unit))) :=
  ⟨Or.inr (Or.inr (Or.inl ⟨5, rfl⟩)),
    C9_bad_ids_dropped Unit Unit Unit 1 () []
      [⟨some ⟨some (.uuid uuidNilString)⟩, ()⟩]
      [⟨some ⟨some (.uuid uuidNilString)⟩, ()⟩]
      ⟨some ⟨some (.num 5)⟩, ()⟩
      (Or.inr (Or.inr (Or.inl ⟨5, rfl⟩)))⟩

/-- Claim C10: during a Private→Private merge the existing authors value is
sanitized before the author is added: the write-back's author list is
`mergeAuthor (sanitizeAuthors current) b`, where sanitization turns a
missing `authors` key or a non-list value into the empty list, and drops
from a list every entry that is not a string or is the empty string. -/
theorem C10_author_sanitization (V F : Type) (pid b : String) (p : RetrievedPoint)
    (rest : List RetrievedPoint) (setResp : Except Unit Unit) (v : JsonValue)
    (hget : p.payload.get "private" = some v)
    (hpriv : v.as_bool = some true) :
    (update_qdrant_point_private_query V F pid true (some b) (.ok ())
        (.ok (p :: rest)) setResp).1
      = [.getPoints "debate_cards" [pid],
         .setPayload "debate-cards" [pid]
           [("private", .bool true),
            ("authors",
             .list ((mergeAuthor (sanitizeAuthors (p.payload.get "authors")) b).map .str))]] ∧
    sanitizeAuthors none = [] ∧
    (∀ j, j.as_list = none → sanitizeAuthors (some j) = []) ∧
    (∀ l₁ l₂ : List JsonValue, ∀ a : JsonValue,
      (a.as_str = none ∨ a.as_str = some "") →
      sanitizeAuthors (some (.list (l₁ ++ a :: l₂)))
        = sanitizeAuthors (some (.list (l₁ ++ l₂)))) := by
  refine ⟨update_private_true_calls V F pid b p rest setResp v hget hpriv, rfl, ?_, ?_⟩
  · intro j hj
    simp [sanitizeAuthors, hj]
  · intro l₁ l₂ a ha
    rcases ha with h | h <;>
      simp [sanitizeAuthors, JsonValue.as_list, List.filter_append, h]

/-- Claim C10, witness: a non-list `authors` value (a number) is sanitized
to the empty list, so the write-back carries just the requesting author. -/
theorem C10_author_sanitization_witness :
    Payload.get [("private", JsonValue.bool true), ("authors", JsonValue.num 3)] "private"
      = some (.bool true) ∧
    (JsonValue.bool true).as_bool = some true ∧
    ((update_qdrant_point_private_query Unit Unit "p" true (some "b") (.ok ())
        (.ok [⟨[("private", JsonValue.bool true), ("authors", JsonValue.num 3)]⟩])
        (.ok ())).1
      = [.getPoints "debate_cards" ["p"],
         .setPayload "debate-cards" ["p"]
           [("private", .bool true),
            ("authors",
             .list ((mergeAuthor (sanitizeAuthors
               (Payload.get [("private", JsonValue.bool true),
                 ("authors", JsonValue.num 3)] "authors")) "b").map .str))]] ∧
    sanitizeAuthors none = [] ∧
    (∀ j, j.as_list = none → sanitizeAuthors (some j) = []) ∧
    (∀ l₁ l₂ : List JsonValue, ∀ a : JsonValue,
      (a.as_str = none ∨ a.as_str = some "") →
      sanitizeAuthors (some (.list (l₁ ++ a :: l₂)))
        = sanitizeAuthors (some (.list (l₁ ++ l₂))))) :=
  ⟨rfl, rfl,
    C10_author_sanitization Unit Unit "p" "b"
      ⟨[("private", JsonValue.bool true), ("authors", JsonValue.num 3)]⟩ [] (.ok ())
      (.bool true) rfl rfl⟩

end Arguflow
